import Mathlib

/-!
Verification of the announcements router of the school management API
(`src/backend/routers/announcements.py`).

The router is embedded shallowly:

* MongoDB string comparison (`$gte` / `$lte` on `YYYY-MM-DD` strings) is
  modelled by a lexicographic comparison on the character list of the string.
* The announcements collection is a list of `(key, document)` pairs, the key
  being the hex string form of the document's ObjectId.
* The teacher directory is the list of usernames that have a teacher record.
* `datetime.now()` values (today's date and the creation timestamp) are
  inputs of the model, as is the ObjectId assigned by `insert_one`.
* Handlers return `ApiResult`: `ok` with the response payload and the state
  of the collection after the call, or `error` with the `HTTPException`
  raised (401 / 400 / 404, each `detail` string its own constructor).
* `datetime.strptime(s, "%Y-%m-%d")` is modelled by `validDate` (four ASCII
  digit year ≥ 1, one or two digit month 1..12, one or two digit day
  bounded by the month length, nothing else), and `bson.ObjectId(s)` accepts
  exactly the 24-character hex strings (`isValidObjectId`).
* In the Python handlers `start_date` is a query parameter with default
  `""`, so an omitted parameter and an explicit empty string are the same
  value; the model takes the resulting string directly.
-/

/-- Lexicographic `≤` on character lists, by code point: the order MongoDB
uses for `$lte` / `$gte` on the date strings of this collection. -/
def charListLe : List Char → List Char → Bool
  | [], _ => true
  | _ :: _, [] => false
  | c :: cs, d :: ds =>
    if c.toNat < d.toNat then true
    else if d.toNat < c.toNat then false
    else charListLe cs ds

/-- String `≤` as MongoDB compares the `YYYY-MM-DD` strings. -/
def strLe (a b : String) : Bool := charListLe a.data b.data

/-- ASCII decimal digit. -/
def isDigitChar (c : Char) : Bool := 48 ≤ c.toNat && c.toNat ≤ 57

/-- ASCII hexadecimal digit, either case. -/
def isHexChar (c : Char) : Bool :=
  isDigitChar c || (97 ≤ c.toNat && c.toNat ≤ 102) || (65 ≤ c.toNat && c.toNat ≤ 70)

/-- `bson.ObjectId(s)` succeeds exactly on 24-character hex strings; this is
the structural validity check behind `ObjectId(announcement_id)`. -/
def isValidObjectId (s : String) : Bool :=
  s.data.length == 24 && s.data.all isHexChar

/-- Split a character list at every occurrence of `sep`, keeping empty
pieces, as Python splits the date string at the `-` separators. -/
def splitOnChar (sep : Char) : List Char → List (List Char)
  | [] => [[]]
  | c :: cs =>
    let rest := splitOnChar sep cs
    if c = sep then [] :: rest
    else
      match rest with
      | r :: rs => (c :: r) :: rs
      | [] => [[c]]

/-- Numeric value of a list of ASCII digits. -/
def digitsToNat (cs : List Char) : Nat :=
  cs.foldl (fun n c => n * 10 + (c.toNat - 48)) 0

/-- Gregorian leap year, as `datetime` uses it. -/
def isLeapYear (y : Nat) : Bool := y % 4 == 0 && (y % 100 != 0 || y % 400 == 0)

/-- Number of days of month `m` of year `y`. -/
def daysInMonth (y m : Nat) : Nat :=
  if m == 2 then (if isLeapYear y then 29 else 28)
  else if m == 4 || m == 6 || m == 9 || m == 11 then 30
  else 31

/-- `datetime.strptime(s, "%Y-%m-%d")` succeeds: a four-digit year, a one or
two digit month, a one or two digit day, separated by `-` with nothing left
over, and the three values form a real calendar date (year at least 1,
month 1..12, day bounded by the month length). -/
def validDate (s : String) : Bool :=
  match splitOnChar '-' s.data with
  | [ys, ms, ds] =>
    ys.length == 4 && ys.all isDigitChar &&
    (ms.length == 1 || ms.length == 2) && ms.all isDigitChar &&
    (ds.length == 1 || ds.length == 2) && ds.all isDigitChar &&
    (let y := digitsToNat ys
     let m := digitsToNat ms
     let d := digitsToNat ds
     1 ≤ y && 1 ≤ m && m ≤ 12 && 1 ≤ d && d ≤ daysInMonth y m)
  | _ => false

/-- An announcement document of the collection. `start_date = none` models a
document without the field (the `$exists: False` branch of the active
query); documents written by this router always carry the field. -/
structure Announcement where
  message : String
  expiration_date : String
  start_date : Option String
  created_by : String
  created_at : String
deriving DecidableEq, Repr

/-- The announcements collection: `(ObjectId hex string, document)` pairs. -/
structure Store where
  docs : List (String × Announcement)
deriving DecidableEq, Repr

/-- Per-request environment: the teacher directory and the two clock reads
(`datetime.now().strftime("%Y-%m-%d")` and `datetime.now().isoformat()`). -/
structure Env where
  teachers : List String
  today : String
  now : String
deriving Repr

/-- The `HTTPException`s the router raises, one constructor per distinct
`(status_code, detail)` pair. -/
inductive ApiError where
  | authRequired
  | invalidExpirationDate
  | invalidStartDate
  | invalidId
  | notFound
deriving DecidableEq, Repr

/-- The HTTP status code of each error. -/
def ApiError.status : ApiError → Nat
  | .authRequired => 401
  | .invalidExpirationDate => 400
  | .invalidStartDate => 400
  | .invalidId => 400
  | .notFound => 404

/-- Outcome of a handler call: the response payload together with the
collection afterwards, or the raised `HTTPException`. An `error` outcome
leaves the collection untouched. -/
inductive ApiResult (α : Type) where
  | ok (value : α) (store : Store)
  | error (e : ApiError)
deriving DecidableEq, Repr

/-- `teachers_collection.find_one({"_id": u})` returns a record. -/
def teacherExists (env : Env) (u : String) : Bool := env.teachers.contains u

/-- `announcements_collection.find_one({"_id": obj_id})`. -/
def findDoc (st : Store) (k : String) : Option Announcement :=
  (st.docs.find? (fun p => p.1 == k)).map (fun p => p.2)

/-- `update_one({"_id": k}, {"$set": ...})`: replace the document stored
under `k`, leaving every other document as it was. -/
def setDoc (st : Store) (k : String) (a : Announcement) : Store :=
  ⟨st.docs.map (fun p => if p.1 == k then (k, a) else p)⟩

/-- The filter of the active query: `expiration_date >= today` and
(`start_date` absent, or empty, or `start_date <= today`). -/
def isActive (today : String) (a : Announcement) : Bool :=
  strLe today a.expiration_date &&
    (match a.start_date with
     | none => true
     | some s => s == "" || strLe s today)

/-- Insert `p` into a list sorted by `created_at` descending. -/
def insertByCreatedDesc (p : String × Announcement) :
    List (String × Announcement) → List (String × Announcement)
  | [] => [p]
  | q :: qs =>
    if strLe q.2.created_at p.2.created_at then p :: q :: qs
    else q :: insertByCreatedDesc p qs

/-- `.sort("created_at", -1)`: order by `created_at` descending. -/
def sortByCreatedDesc : List (String × Announcement) → List (String × Announcement)
  | [] => []
  | p :: ps => insertByCreatedDesc p (sortByCreatedDesc ps)

/-- `GET /announcements`: the public active listing. No authentication, no
side effect; serialization keeps the key as the `id` field of the pair. -/
def get_active_announcements (env : Env) (st : Store) :
    List (String × Announcement) :=
  sortByCreatedDesc (st.docs.filter (fun p => isActive env.today p.2))

/-- `GET /announcements/all`: every announcement, after the teacher check. -/
def get_all_announcements (env : Env) (st : Store) (teacher_username : String) :
    ApiResult (List (String × Announcement)) :=
  if !(teacherExists env teacher_username) then .error .authRequired
  else .ok (sortByCreatedDesc st.docs) st

/-- `POST /announcements`. `newId` is the ObjectId that `insert_one`
assigns. `start_date` defaults to `""` when the query parameter is absent,
and `start_date or ""` stores the string itself (it is already `""` when
falsy), so the stored field is exactly the input string. -/
def create_announcement (env : Env) (st : Store)
    (message expiration_date start_date teacher_username newId : String) :
    ApiResult (String × Announcement) :=
  if !(teacherExists env teacher_username) then .error .authRequired
  else if !(validDate expiration_date) then .error .invalidExpirationDate
  else if start_date != "" && !(validDate start_date) then .error .invalidStartDate
  else
    let doc : Announcement :=
      { message := message
        expiration_date := expiration_date
        start_date := some start_date
        created_by := teacher_username
        created_at := env.now }
    .ok (newId, doc) ⟨st.docs ++ [(newId, doc)]⟩

/-- `PUT /announcements/{announcement_id}`: teacher check, then ObjectId
parse (400 on failure), then existence (404), then the two date checks,
then `$set` of the three mutable fields and re-read of the document. -/
def update_announcement (env : Env) (st : Store)
    (announcement_id message expiration_date start_date teacher_username : String) :
    ApiResult (String × Announcement) :=
  if !(teacherExists env teacher_username) then .error .authRequired
  else if !(isValidObjectId announcement_id) then .error .invalidId
  else
    match findDoc st announcement_id with
    | none => .error .notFound
    | some existing =>
      if !(validDate expiration_date) then .error .invalidExpirationDate
      else if start_date != "" && !(validDate start_date) then .error .invalidStartDate
      else
        let updated : Announcement :=
          { existing with
            message := message
            expiration_date := expiration_date
            start_date := some start_date }
        .ok (announcement_id, updated) (setDoc st announcement_id updated)

/-- `DELETE /announcements/{announcement_id}`: teacher check, ObjectId
parse, `delete_one` (removes at most one matching document), 404 when
`deleted_count == 0`. -/
def delete_announcement (env : Env) (st : Store)
    (announcement_id teacher_username : String) : ApiResult String :=
  if !(teacherExists env teacher_username) then .error .authRequired
  else if !(isValidObjectId announcement_id) then .error .invalidId
  else
    let remaining := st.docs.eraseP (fun p => p.1 == announcement_id)
    if remaining.length == st.docs.length then .error .notFound
    else .ok "Announcement deleted successfully" ⟨remaining⟩

/-! ## Helper lemmas -/

theorem mem_insertByCreatedDesc (p x : String × Announcement)
    (l : List (String × Announcement)) :
    x ∈ insertByCreatedDesc p l ↔ x = p ∨ x ∈ l := by
  induction l with
  | nil => simp [insertByCreatedDesc]
  | cons q qs ih =>
    unfold insertByCreatedDesc
    by_cases hc : strLe q.2.created_at p.2.created_at = true
    · simp [hc, List.mem_cons]
    · simp only [hc, Bool.false_eq_true, if_false, List.mem_cons, ih]
      tauto

theorem mem_sortByCreatedDesc (x : String × Announcement)
    (l : List (String × Announcement)) :
    x ∈ sortByCreatedDesc l ↔ x ∈ l := by
  induction l with
  | nil => simp [sortByCreatedDesc]
  | cons p ps ih => simp [sortByCreatedDesc, mem_insertByCreatedDesc, ih]

theorem mem_get_active (env : Env) (st : Store) (x : String × Announcement) :
    x ∈ get_active_announcements env st ↔
      x ∈ st.docs ∧ isActive env.today x.2 = true := by
  unfold get_active_announcements
  rw [mem_sortByCreatedDesc, List.mem_filter]

theorem isActive_iff (t : String) (a : Announcement) :
    isActive t a = true ↔
      (strLe t a.expiration_date = true ∧
        (a.start_date = none ∨ a.start_date = some "" ∨
          ∃ s, a.start_date = some s ∧ strLe s t = true)) := by
  unfold isActive
  cases hs : a.start_date with
  | none => simp
  | some s =>
    simp only [Bool.and_eq_true, Bool.or_eq_true, beq_iff_eq, reduceCtorEq,
      Option.some.injEq, false_or]
    constructor
    · rintro ⟨h1, h2 | h2⟩
      · exact ⟨h1, Or.inl h2⟩
      · exact ⟨h1, Or.inr ⟨s, rfl, h2⟩⟩
    · rintro ⟨h1, h2 | ⟨s2, hs2, h2⟩⟩
      · exact ⟨h1, Or.inl h2⟩
      · cases hs2; exact ⟨h1, Or.inr h2⟩

theorem find?_map_set_ne (docs : List (String × Announcement))
    (aid k2 : String) (a : Announcement) (h : k2 ≠ aid) :
    (docs.map (fun p => if p.1 == aid then (aid, a) else p)).find?
        (fun p => p.1 == k2)
      = docs.find? (fun p => p.1 == k2) := by
  induction docs with
  | nil => rfl
  | cons q rest ih =>
    simp only [List.map_cons]
    by_cases hq : q.1 = aid
    · rw [if_pos (by simp [hq])]
      rw [List.find?_cons_of_neg _ (by simp [Ne.symm h])]
      rw [List.find?_cons_of_neg _ (by simp [hq]; exact Ne.symm h)]
      exact ih
    · rw [if_neg (by simp [hq])]
      by_cases hk : q.1 = k2
      · rw [List.find?_cons_of_pos _ (by simp [hk])]
        rw [List.find?_cons_of_pos _ (by simp [hk])]
      · rw [List.find?_cons_of_neg _ (by simp [hk])]
        rw [List.find?_cons_of_neg _ (by simp [hk])]
        exact ih

theorem find?_map_set_eq (docs : List (String × Announcement))
    (aid : String) (a : Announcement) (p0 : String × Announcement)
    (hex : docs.find? (fun p => p.1 == aid) = some p0) :
    (docs.map (fun p => if p.1 == aid then (aid, a) else p)).find?
        (fun p => p.1 == aid)
      = some (aid, a) := by
  induction docs with
  | nil => simp at hex
  | cons q rest ih =>
    simp only [List.map_cons]
    by_cases hq : q.1 = aid
    · rw [if_pos (by simp [hq])]
      rw [List.find?_cons_of_pos _ (by simp)]
    · rw [if_neg (by simp [hq])]
      rw [List.find?_cons_of_neg _ (by simp [hq])]
      rw [List.find?_cons_of_neg _ (by simp [hq])] at hex
      exact ih hex

theorem findDoc_setDoc_eq (st : Store) (aid : String) (a ex : Announcement)
    (hex : findDoc st aid = some ex) :
    findDoc (setDoc st aid a) aid = some a := by
  unfold findDoc setDoc
  unfold findDoc at hex
  cases hfp : st.docs.find? (fun p => p.1 == aid) with
  | none => rw [hfp] at hex; simp at hex
  | some p0 => rw [find?_map_set_eq st.docs aid a p0 hfp]; rfl

theorem findDoc_setDoc_ne (st : Store) (aid k2 : String) (a : Announcement)
    (h : k2 ≠ aid) :
    findDoc (setDoc st aid a) k2 = findDoc st k2 := by
  unfold findDoc setDoc
  rw [find?_map_set_ne st.docs aid k2 a h]

theorem eraseP_eq_self_of_find?_none (docs : List (String × Announcement))
    (aid : String) (h : docs.find? (fun p => p.1 == aid) = none) :
    docs.eraseP (fun p => p.1 == aid) = docs := by
  apply List.eraseP_of_forall_not
  intro p hp
  exact List.find?_eq_none.mp h p hp

/-! ## Concrete inputs for witnesses and counterexamples -/

/-- An environment with one registered teacher, read on 2099-06-15. -/
def envT : Env :=
  { teachers := ["tch"], today := "2099-06-15", now := "2099-06-01T08:00:00" }

/-- A structurally valid ObjectId hex string. -/
def oid1 : String := "507f1f77bcf86cd799439011"

/-- A second structurally valid ObjectId hex string. -/
def oid2 : String := "507f1f77bcf86cd799439012"

/-- An announcement whose expiration date equals `envT.today`. -/
def c2ann : Announcement :=
  { message := "Spirit week", expiration_date := "2099-06-15", start_date := some ""
    created_by := "tch", created_at := "2099-06-01T08:00:00" }

/-! ## The claims -/

/-- C1: an announcement appears in the public active listing iff its
`expiration_date` is `>= today` and its `start_date` is absent, empty, or
`<= today`, all compared lexicographically on the date strings. -/
theorem spec_c1_active_listing (env : Env) (st : Store) (k : String)
    (a : Announcement) :
    (k, a) ∈ get_active_announcements env st ↔
      ((k, a) ∈ st.docs ∧ strLe env.today a.expiration_date = true ∧
        (a.start_date = none ∨ a.start_date = some "" ∨
          ∃ s, a.start_date = some s ∧ strLe s env.today = true)) := by
  rw [mem_get_active]
  constructor
  · rintro ⟨hmem, hact⟩
    have hact' : isActive env.today a = true := hact
    rw [isActive_iff] at hact'
    exact ⟨hmem, hact'⟩
  · rintro ⟨hmem, hact⟩
    refine ⟨hmem, ?_⟩
    show isActive env.today a = true
    rw [isActive_iff]
    exact hact

/-- C2 fails as stated: on the expiration date itself `today >=
expiration_date` holds, yet the announcement still appears in the public
active listing, because the query uses `$gte` (the date window is
inclusive of the expiration date). -/
theorem spec_c2_counterexample :
    strLe c2ann.expiration_date envT.today = true ∧
    (oid1, c2ann) ∈ get_active_announcements envT ⟨[(oid1, c2ann)]⟩ := by
  decide

/-- C2 (amended): the listing never shows an announcement strictly after
its expiration date: if `today > expiration_date` the announcement does
not appear; on the expiration date itself it is still shown. -/
theorem spec_c2_amended (env : Env) (st : Store) (k : String)
    (a : Announcement) (h : strLe env.today a.expiration_date = false) :
    (k, a) ∉ get_active_announcements env st := by
  intro hmem
  have hact : isActive env.today a = true :=
    ((mem_get_active env st (k, a)).mp hmem).2
  rw [isActive_iff] at hact
  rw [h] at hact
  simp at hact

/-- Witness for the amended C2: one day after its expiration date, `c2ann`
is no longer listed. -/
theorem spec_c2_amended_witness :
    strLe "2099-06-16" c2ann.expiration_date = false ∧
    (oid1, c2ann) ∉
      get_active_announcements ⟨["tch"], "2099-06-16", "2099-06-16T08:00:00"⟩
        ⟨[(oid1, c2ann)]⟩ :=
  ⟨by decide,
   spec_c2_amended ⟨["tch"], "2099-06-16", "2099-06-16T08:00:00"⟩
     ⟨[(oid1, c2ann)]⟩ oid1 c2ann (by decide)⟩

/-- C3: when `teacher_username` has no record in the directory, create,
update, delete and the management listing all fail with the 401
authentication error, before any validation or store lookup; the erroring
call returns no new store, so nothing is persisted. -/
theorem spec_c3_auth_gate (env : Env) (st : Store)
    (m expd sd tu nid aid : String) (h : teacherExists env tu = false) :
    create_announcement env st m expd sd tu nid = .error .authRequired ∧
    update_announcement env st aid m expd sd tu = .error .authRequired ∧
    delete_announcement env st aid tu = .error .authRequired ∧
    get_all_announcements env st tu = .error .authRequired := by
  refine ⟨?_, ?_, ?_, ?_⟩ <;>
    simp [create_announcement, update_announcement, delete_announcement,
      get_all_announcements, h]

/-- Witness for C3: the unknown teacher "ghost" is rejected by all four
authenticated operations. -/
theorem spec_c3_witness :
    teacherExists envT "ghost" = false ∧
    (create_announcement envT ⟨[]⟩ "Hello" "2099-01-01" "" "ghost" oid1
        = .error .authRequired ∧
      update_announcement envT ⟨[]⟩ oid2 "Hello" "2099-01-01" "" "ghost"
        = .error .authRequired ∧
      delete_announcement envT ⟨[]⟩ oid2 "ghost" = .error .authRequired ∧
      get_all_announcements envT ⟨[]⟩ "ghost" = .error .authRequired) :=
  ⟨by decide,
   spec_c3_auth_gate envT ⟨[]⟩ "Hello" "2099-01-01" "" "ghost" oid1 oid2
     (by decide)⟩

/-- C4: for an authenticated update, existence of the target record is
checked before date validation: a structurally valid id that matches no
record yields the 404 error whatever the date fields contain, and a
malformed-date error can only be raised when the record exists. -/
theorem spec_c4_existence_before_dates (env : Env) (st : Store)
    (aid m expd sd tu : String) (h : teacherExists env tu = true) :
    (isValidObjectId aid = true → findDoc st aid = none →
      update_announcement env st aid m expd sd tu = .error .notFound) ∧
    ((update_announcement env st aid m expd sd tu
          = .error .invalidExpirationDate ∨
      update_announcement env st aid m expd sd tu
          = .error .invalidStartDate) →
      ∃ ex, findDoc st aid = some ex) := by
  constructor
  · intro hv hn
    simp [update_announcement, h, hv, hn]
  · intro hcase
    by_cases hv : isValidObjectId aid = true
    · cases hfd : findDoc st aid with
      | none => simp [update_announcement, h, hv, hfd] at hcase
      | some ex => exact ⟨ex, rfl⟩
    · have hv' : isValidObjectId aid = false := by
        simpa using hv
      simp [update_announcement, h, hv'] at hcase

/-- Witness for C4: a valid ObjectId absent from an empty store gives 404
even though the expiration date is malformed. -/
theorem spec_c4_witness :
    update_announcement envT ⟨[]⟩ oid1 "msg" "not-a-date" "" "tch"
      = .error .notFound :=
  (spec_c4_existence_before_dates envT ⟨[]⟩ oid1 "msg" "not-a-date" "" "tch"
    (by decide)).1 (by decide) (by decide)

/-- C5 fails as stated: an authenticated update with the structurally
invalid id "not-a-valid-key" fails with the 400 invalid-identifier error,
not with the not-found error the claim demands. -/
theorem spec_c5_counterexample :
    update_announcement envT ⟨[]⟩ "not-a-valid-key" "msg" "2099-01-01" "" "tch"
        = .error .invalidId ∧
      ApiError.invalidId ≠ ApiError.notFound ∧
      ApiError.invalidId.status = 400 := by
  decide

/-- C5 (amended): for every authenticated update whose id is not a
structurally valid store key, the operation fails with the
invalid-identifier error (400), not the not-found error. -/
theorem spec_c5_amended (env : Env) (st : Store) (aid m expd sd tu : String)
    (h : teacherExists env tu = true) (hv : isValidObjectId aid = false) :
    update_announcement env st aid m expd sd tu = .error .invalidId := by
  simp [update_announcement, h, hv]

/-- Witness for the amended C5. -/
theorem spec_c5_amended_witness :
    update_announcement envT ⟨[]⟩ "zzz" "msg" "2099-01-01" "" "tch"
      = .error .invalidId :=
  spec_c5_amended envT ⟨[]⟩ "zzz" "msg" "2099-01-01" "" "tch" (by decide)
    (by decide)

/-- C6: for authenticated update and delete, a structurally malformed id
yields the 400 invalid-identifier error and a valid id matching no record
yields the 404 not-found error; the two outcomes are distinct, and
`update(id="not-a-valid-key", ...)` in particular yields the former. -/
theorem spec_c6_id_error_taxonomy (env : Env) (st : Store)
    (aid m expd sd tu : String) (h : teacherExists env tu = true) :
    (isValidObjectId aid = false →
      update_announcement env st aid m expd sd tu = .error .invalidId ∧
      delete_announcement env st aid tu = .error .invalidId) ∧
    (isValidObjectId aid = true → findDoc st aid = none →
      update_announcement env st aid m expd sd tu = .error .notFound ∧
      delete_announcement env st aid tu = .error .notFound) ∧
    update_announcement env st "not-a-valid-key" m expd sd tu
        = .error .invalidId ∧
    ApiError.invalidId.status = 400 ∧ ApiError.notFound.status = 404 ∧
    ApiError.invalidId ≠ ApiError.notFound := by
  have hnk : isValidObjectId "not-a-valid-key" = false := by decide
  refine ⟨?_, ?_, ?_, rfl, rfl, by decide⟩
  · intro hv
    constructor <;>
      simp [update_announcement, delete_announcement, h, hv]
  · intro hv hfd
    have hf : st.docs.find? (fun p => p.1 == aid) = none := by
      unfold findDoc at hfd
      exact Option.map_eq_none'.mp hfd
    constructor
    · simp [update_announcement, h, hv, hfd]
    · simp [delete_announcement, h, hv,
        eraseP_eq_self_of_find?_none st.docs aid hf]
  · simp [update_announcement, h, hnk]

/-- Witness for C6: the invalid key gives 400 on update, a fresh valid key
gives 404 on delete. -/
theorem spec_c6_witness :
    update_announcement envT ⟨[]⟩ "not-a-valid-key" "msg" "2099-01-01" "" "tch"
        = .error .invalidId ∧
      delete_announcement envT ⟨[]⟩ oid1 "tch" = .error .notFound :=
  ⟨(spec_c6_id_error_taxonomy envT ⟨[]⟩ "not-a-valid-key" "msg" "2099-01-01"
      "" "tch" (by decide)).2.2.1,
   ((spec_c6_id_error_taxonomy envT ⟨[]⟩ oid1 "msg" "2099-01-01" "" "tch"
      (by decide)).2.1 (by decide) (by decide)).2⟩

/-- C7: a successful create persists a record with `created_by` the
authenticated username, `created_at` the call-time timestamp, the supplied
message and dates (so `start_date = ""` when the parameter was omitted,
`""` being its default), and returns exactly the stored record together
with the id the store assigned. -/
theorem spec_c7_create_persists (env : Env) (st st2 : Store)
    (m expd sd tu nid k : String) (a : Announcement)
    (h : create_announcement env st m expd sd tu nid = .ok (k, a) st2) :
    a.created_by = tu ∧ a.created_at = env.now ∧ a.message = m ∧
    a.expiration_date = expd ∧ a.start_date = some sd ∧
    (sd = "" → a.start_date = some "") ∧
    k = nid ∧ (k, a) ∈ st2.docs := by
  unfold create_announcement at h
  split at h
  · exact absurd h (by simp)
  · split at h
    · exact absurd h (by simp)
    · split at h
      · exact absurd h (by simp)
      · simp only [ApiResult.ok.injEq, Prod.mk.injEq] at h
        obtain ⟨⟨hk, ha⟩, hst⟩ := h
        subst hk
        subst ha
        subst hst
        refine ⟨rfl, rfl, rfl, rfl, rfl, ?_, rfl, by simp⟩
        intro hsd
        rw [hsd]

/-- The record the witness create call persists. -/
def c7doc : Announcement :=
  { message := "Hello", expiration_date := "2099-01-01", start_date := some ""
    created_by := "tch", created_at := "2099-06-01T08:00:00" }

/-- Witness for C7: a concrete successful create. -/
theorem spec_c7_witness :
    c7doc.created_by = "tch" ∧ c7doc.created_at = envT.now ∧
    c7doc.message = "Hello" ∧ c7doc.expiration_date = "2099-01-01" ∧
    c7doc.start_date = some "" ∧ ("" = "" → c7doc.start_date = some "") ∧
    oid1 = oid1 ∧ (oid1, c7doc) ∈ (Store.mk [(oid1, c7doc)]).docs :=
  spec_c7_create_persists envT ⟨[]⟩ ⟨[(oid1, c7doc)]⟩ "Hello" "2099-01-01"
    "" "tch" oid1 oid1 c7doc (by decide)

/-- C8: a successful update of an existing record replaces exactly
`message`, `expiration_date` and `start_date`; `created_by`, `created_at`
and the id are unchanged, and every other record of the store is left as
it was. -/
theorem spec_c8_update_frame (env : Env) (st st2 : Store)
    (aid m expd sd tu k : String) (ex a : Announcement)
    (hex : findDoc st aid = some ex)
    (h : update_announcement env st aid m expd sd tu = .ok (k, a) st2) :
    k = aid ∧ a.created_by = ex.created_by ∧ a.created_at = ex.created_at ∧
    a.message = m ∧ a.expiration_date = expd ∧ a.start_date = some sd ∧
    findDoc st2 aid = some a ∧
    (∀ k2, k2 ≠ aid → findDoc st2 k2 = findDoc st k2) := by
  unfold update_announcement at h
  split at h
  · exact absurd h (by simp)
  · split at h
    · exact absurd h (by simp)
    · split at h
      next heq => exact absurd h (by simp)
      next existing heq =>
        rw [hex] at heq
        injection heq with hexx
        subst hexx
        split at h
        · exact absurd h (by simp)
        · split at h
          · exact absurd h (by simp)
          · simp only [ApiResult.ok.injEq, Prod.mk.injEq] at h
            obtain ⟨⟨hk, ha⟩, hst⟩ := h
            subst hk
            subst ha
            subst hst
            refine ⟨rfl, rfl, rfl, rfl, rfl, rfl, ?_, ?_⟩
            · exact findDoc_setDoc_eq st aid _ ex hex
            · intro k2 hk2
              exact findDoc_setDoc_ne st aid k2 _ hk2

/-- The record stored by the update of the C8 witness. -/
def c8before : Announcement :=
  { message := "Old text", expiration_date := "2099-06-20"
    start_date := some "2099-06-10", created_by := "tch"
    created_at := "2099-06-01T08:00:00" }

/-- `c8before` after the witness update. -/
def c8after : Announcement :=
  { message := "New text", expiration_date := "2099-12-31"
    start_date := some "2099-07-01", created_by := "tch"
    created_at := "2099-06-01T08:00:00" }

/-- Witness for C8: a concrete successful update keeps `created_by`,
`created_at` and the id, and does not touch other keys. -/
theorem spec_c8_witness :
    oid1 = oid1 ∧ c8after.created_by = c8before.created_by ∧
    c8after.created_at = c8before.created_at ∧
    c8after.message = "New text" ∧ c8after.expiration_date = "2099-12-31" ∧
    c8after.start_date = some "2099-07-01" ∧
    findDoc (Store.mk [(oid1, c8after)]) oid1 = some c8after ∧
    (∀ k2, k2 ≠ oid1 →
      findDoc (Store.mk [(oid1, c8after)]) k2
        = findDoc (Store.mk [(oid1, c8before)]) k2) :=
  spec_c8_update_frame envT ⟨[(oid1, c8before)]⟩ ⟨[(oid1, c8after)]⟩ oid1
    "New text" "2099-12-31" "2099-07-01" "tch" oid1 c8before c8after
    (by decide) (by decide)

/-- The record persisted by the empty-message create of the C9
counterexample. -/
def c9doc : Announcement :=
  { message := "", expiration_date := "2099-01-01", start_date := some ""
    created_by := "tch", created_at := "2099-06-01T08:00:00" }

/-- C9 fails as stated: a create call with `message = ""` by a registered
teacher succeeds and persists a record whose message is the empty string —
neither create nor update checks the message for non-emptiness. -/
theorem spec_c9_counterexample :
    create_announcement envT ⟨[]⟩ "" "2099-01-01" "" "tch" oid1
        = .ok (oid1, c9doc) ⟨[(oid1, c9doc)]⟩ ∧
      c9doc.message = "" := by
  decide

/-- C9 (amended): create stores the supplied message verbatim; the message
must be supplied but is not checked for non-emptiness, so an authenticated
create with valid dates and an empty message succeeds and persists a
record with `message = ""`. -/
theorem spec_c9_amended (env : Env) (st : Store) (expd sd tu nid : String)
    (h : teacherExists env tu = true) (h2 : validDate expd = true)
    (h3 : sd = "" ∨ validDate sd = true) :
    ∃ a st2,
      create_announcement env st "" expd sd tu nid = .ok (nid, a) st2 ∧
      a.message = "" ∧ (nid, a) ∈ st2.docs := by
  have hguard : (sd != "" && !(validDate sd)) = false := by
    rcases h3 with h3 | h3 <;> simp [h3]
  refine ⟨{ message := "", expiration_date := expd, start_date := some sd,
            created_by := tu, created_at := env.now },
          ⟨st.docs ++ [(nid,
            { message := "", expiration_date := expd, start_date := some sd,
              created_by := tu, created_at := env.now })]⟩,
          ?_, rfl, by simp⟩
  simp [create_announcement, h, h2, hguard]

/-- Witness for the amended C9. -/
theorem spec_c9_amended_witness :
    ∃ a st2,
      create_announcement envT ⟨[]⟩ "" "2099-01-01" "" "tch" oid2
          = .ok (oid2, a) st2 ∧
        a.message = "" ∧ (oid2, a) ∈ st2.docs :=
  spec_c9_amended envT ⟨[]⟩ "2099-01-01" "" "tch" oid2 (by decide)
    (by decide) (Or.inl rfl)

/-- C10: a successful update whose `start_date` parameter is the empty
string (the value an omitted parameter defaults to) stores `start_date =
""`, clearing any previously stored non-empty start date. -/
theorem spec_c10_clears_start_date (env : Env) (st st2 : Store)
    (aid m expd tu k : String) (a : Announcement)
    (h : update_announcement env st aid m expd "" tu = .ok (k, a) st2) :
    a.start_date = some "" ∧ findDoc st2 aid = some a := by
  unfold update_announcement at h
  split at h
  · exact absurd h (by simp)
  · split at h
    · exact absurd h (by simp)
    · split at h
      next heq => exact absurd h (by simp)
      next existing heq =>
        split at h
        · exact absurd h (by simp)
        · split at h
          · exact absurd h (by simp)
          · simp only [ApiResult.ok.injEq, Prod.mk.injEq] at h
            obtain ⟨⟨hk, ha⟩, hst⟩ := h
            subst hk
            subst ha
            subst hst
            exact ⟨rfl, findDoc_setDoc_eq st aid _ existing heq⟩

/-- A record with a non-empty stored start date, before the C10 witness
update. -/
def c10before : Announcement :=
  { message := "Old text", expiration_date := "2099-06-20"
    start_date := some "2099-06-10", created_by := "tch"
    created_at := "2099-06-01T08:00:00" }

/-- `c10before` after the witness update with an empty `start_date`. -/
def c10after : Announcement :=
  { message := "New text", expiration_date := "2099-12-31"
    start_date := some "", created_by := "tch"
    created_at := "2099-06-01T08:00:00" }

/-- Witness for C10: the previously stored start date "2099-06-10" is
cleared to `""` by an update whose `start_date` parameter is empty. -/
theorem spec_c10_witness :
    c10after.start_date = some "" ∧
    findDoc (Store.mk [(oid1, c10after)]) oid1 = some c10after :=
  spec_c10_clears_start_date envT ⟨[(oid1, c10before)]⟩
    ⟨[(oid1, c10after)]⟩ oid1 "New text" "2099-12-31" "tch" oid1 c10after
    (by decide)
